import Mathlib

set_option maxHeartbeats 1000000

/-!
Shallow embedding of the dealership backend's lead-intelligence and
interaction-processing pipeline, together with theorems about it.

Conventions used throughout:
* Python strings are Lean `String`s; `str.lower` is modelled as ASCII
  lowercasing (the keyword vocabulary is pure ASCII and the matching is
  documented as locale-naive ASCII lowercasing).
* Python `needle in haystack` is `strContains haystack needle`.
* Python `None` becomes `Option.none`; Python truthiness of an optional
  string (`if x:`) is `optTruthy` (None and "" are both falsy).
* Machine integers are `Nat`/`Int` (no overflow is reachable: all scores
  are bounded by 100 and timestamps are plain integers).
-/

/-- ASCII-lowercase a string: models Python `str.lower()` on the ASCII
keyword data used by the analyzers. -/
def lowerStr (s : String) : String := String.mk (s.data.map Char.toLower)

/-- Prefix test: `leadsWith n h` is true when the list `n` is an initial segment of `h`. -/
def leadsWith : List Char → List Char → Bool
  | [], _ => true
  | _ :: _, [] => false
  | a :: as, b :: bs => a == b && leadsWith as bs

/-- Substring occurrence test: `hasSubList n h` is true when `n` occurs as a contiguous run inside `h`. -/
def hasSubList (n : List Char) : List Char → Bool
  | [] => leadsWith n []
  | c :: t => leadsWith n (c :: t) || hasSubList n t

/-- Python's substring test `needle in haystack`. -/
def strContains (haystack needle : String) : Bool :=
  hasSubList needle.data haystack.data

/-- Python truthiness of an optional string: `None` and `""` are falsy. -/
def optTruthy (o : Option String) : Bool :=
  match o with
  | none => false
  | some s => !(s == "")

/-- Models `len(text.split())`: the number of maximal whitespace-free runs.
The boolean argument records whether the previous character was inside a
word. -/
def word_count_aux : List Char → Bool → Nat
  | [], _ => 0
  | c :: t, inWord =>
    if c.isWhitespace then word_count_aux t false
    else (if inWord then 0 else 1) + word_count_aux t true

/-- Word count `len(text.split())` from `calculate_engagement_score`. -/
def word_count (s : String) : Nat := word_count_aux s.data false

/-- Question count `text.count('?')` from `calculate_engagement_score`. -/
def question_count (s : String) : Nat := s.data.count '?'

/- ---------------------------------------------------------------------
   backend/app/agents/lead_intelligence_agent/analyzer.py
   --------------------------------------------------------------------- -/

def POSITIVE_KEYWORDS : List String :=
  ["interested", "love", "perfect", "excellent", "amazing", "great", "wonderful",
   "excited", "looking forward", "impressive", "beautiful", "fantastic"]

def NEGATIVE_KEYWORDS : List String :=
  ["expensive", "too much", "not sure", "concerned", "worried", "hesitant",
   "maybe later", "thinking about it", "budget", "afford"]

def NEUTRAL_KEYWORDS : List String :=
  ["information", "details", "options", "compare", "research", "learn more"]

/-- The intent table, in Python dict insertion order (Python 3.7+ dicts
iterate in insertion order, which fixes the order of the detected list). -/
def INTENT_KEYWORDS : List (String × List String) :=
  [("test_drive",
    ["test drive", "drive the car", "try it out", "test it", "take it for a spin",
     "experience the vehicle", "feel the car"]),
   ("pricing",
    ["price", "cost", "how much", "payment", "financing", "afford",
     "monthly payment", "down payment", "total cost", "pricing"]),
   ("appointment",
    ["schedule", "appointment", "visit", "come by", "showroom",
     "meet", "when can I", "availability"]),
   ("purchase_ready",
    ["buy now", "ready to purchase", "want to buy", "make a deal",
     "sign the papers", "close the deal", "ready to proceed"]),
   ("comparison",
    ["compare", "difference between", "versus", "vs", "which is better",
     "alternative", "other options"]),
   ("features",
    ["features", "specifications", "specs", "what does it have",
     "include", "comes with", "standard", "options"]),
   ("trade_in",
    ["trade in", "trade-in", "current car", "sell my car",
     "exchange", "part exchange"]),
   ("service",
    ["maintenance", "service", "warranty", "repair",
     "servicing", "after sales"])]

/-- Function `analyze_conversation_sentiment` from analyzer.py: count how many
positive / negative keywords occur in the lowercased text and compare. -/
def analyze_conversation_sentiment (text : String) : String :=
  if text = "" then "Neutral"
  else
    let text_lower := lowerStr text
    let positive_count := POSITIVE_KEYWORDS.countP (fun keyword => strContains text_lower keyword)
    let negative_count := NEGATIVE_KEYWORDS.countP (fun keyword => strContains text_lower keyword)
    if positive_count > negative_count ∧ positive_count > 0 then "Positive"
    else if negative_count > positive_count ∧ negative_count > 0 then "Negative"
    else "Neutral"

/-- Function `extract_key_intents` from analyzer.py.  The Python loop appends each
intent key at most once (`break` after the first matching keyword), in
table order; that is exactly a filter of the table followed by projecting
the key. -/
def extract_key_intents (text : String) : List String :=
  if text = "" then []
  else
    let text_lower := lowerStr text
    (INTENT_KEYWORDS.filter
      (fun p => p.2.any (fun keyword => strContains text_lower keyword))).map
      (fun p => p.1)

/-- Function `calculate_engagement_score` from analyzer.py. -/
def calculate_engagement_score (text : String) : Nat :=
  if text = "" then 0
  else
    let wc := word_count text
    let lengthScore : Nat := if wc > 100 then 30 else if wc > 50 then 20 else 10
    let intents := extract_key_intents text
    let intentScore : Nat := min (intents.length * 15) 40
    let sentiment := analyze_conversation_sentiment text
    let sentimentScore : Nat :=
      if sentiment = "Positive" then 20 else if sentiment = "Neutral" then 10 else 0
    let questionScore : Nat := min (question_count text * 5) 10
    min (lengthScore + intentScore + sentimentScore + questionScore) 100

/-- Python `str.title()` on ASCII: a letter following a non-letter is
uppercased, a letter following a letter is lowercased.  The boolean is
"previous character was cased". -/
def titleCaseAux : List Char → Bool → List Char
  | [], _ => []
  | c :: t, prevAlpha =>
    (if prevAlpha then c.toLower else c.toUpper) :: titleCaseAux t c.isAlpha

/-- Python `str.title()` (ASCII fragment, which covers the fixed brand /
model / feature vocabularies). -/
def titleCase (s : String) : String := String.mk (titleCaseAux s.data false)

structure VehiclePreferences where
  brands : List String
  models : List String
  price_range : Option String
  features_mentioned : List String
deriving Repr, DecidableEq

/-- Function `extract_vehicle_preferences` from analyzer.py.  Note the guard: the
price-range block runs only when the text mentions one of the currency
words "crore" / "lakh" / "million". -/
def extract_vehicle_preferences (text : String) : VehiclePreferences :=
  let text_lower := lowerStr text
  let brands := ["rolls-royce", "bentley", "ferrari", "lamborghini", "porsche",
                 "maserati", "aston martin", "mclaren", "bugatti", "mercedes", "bmw"]
  let models := ["phantom", "cullinan", "ghost", "continental", "488", "aventador",
                 "huracan", "911", "cayenne", "panamera", "db11", "vantage"]
  let features := ["convertible", "suv", "sedan", "coupe", "electric", "hybrid",
                   "all-wheel drive", "awd", "v8", "v12", "turbo", "supercharged"]
  { brands := (brands.filter (fun b => strContains text_lower b)).map titleCase
    models := (models.filter (fun m => strContains text_lower m)).map titleCase
    price_range :=
      if ["crore", "lakh", "million"].any (fun w => strContains text_lower w) then
        if strContains text_lower "2 crore" || strContains text_lower "20000000" then
          some "2-5 Crores"
        else if strContains text_lower "5 crore" || strContains text_lower "50000000" then
          some "5-10 Crores"
        else if strContains text_lower "10 crore" then
          some "10+ Crores"
        else none
      else none
    features_mentioned := (features.filter (fun f => strContains text_lower f)).map titleCase }

/- ---------------------------------------------------------------------
   backend/app/agents/lead_intelligence_agent/scoring.py
   --------------------------------------------------------------------- -/

def HOT_KEYWORDS : List String :=
  ["buy now", "ready to purchase", "schedule test drive", "phantom", "cullinan",
   "bentley", "ferrari", "urgent", "book appointment", "quote needed"]

def WARM_KEYWORDS : List String :=
  ["interested", "more information", "pricing", "financing", "options",
   "compare models", "availability"]

def COLD_KEYWORDS : List String :=
  ["just looking", "researching", "future", "maybe later", "not serious"]

/-- Function `score_lead_from_text` from scoring.py: priority-ordered keyword
classifier (hot, then warm, then cold; non-empty unmatched text falls
through to Warm Lead). -/
def score_lead_from_text (text_input : String) : String :=
  if text_input = "" then "Cold Lead"
  else
    let text_lower := lowerStr text_input
    if HOT_KEYWORDS.any (fun keyword => strContains text_lower keyword) then "Hot Lead"
    else if WARM_KEYWORDS.any (fun keyword => strContains text_lower keyword) then "Warm Lead"
    else if COLD_KEYWORDS.any (fun keyword => strContains text_lower keyword) then "Cold Lead"
    else "Warm Lead"

/- ---------------------------------------------------------------------
   Data model (backend/app/models): the rows the pipeline reads and writes.
   --------------------------------------------------------------------- -/

/-- A row of the `customers` table (models/customer_model.py).  `customer_type`
has column default `'Prospect'`. -/
structure Customer where
  customer_id : Nat
  first_name : Option String
  last_name : Option String
  phone_number : String
  email : Option String
  address : Option String
  customer_type : String
deriving Repr, DecidableEq

/-- A row of the `interactions` table (models/interaction_model.py).
`customer_id` is modelled as a plain `Nat`: the column is nullable only to
survive customer deletion, which is an administrative operation outside the
pipeline under study. -/
structure Interaction where
  interaction_id : Nat
  customer_id : Nat
  channel : String
  content : Option String
  summary : Option String
  outcome : Option String
  sentiment : Option String
  lead_score_impact : Option Int
  interaction_timestamp : Int
deriving Repr, DecidableEq

/- ---------------------------------------------------------------------
   backend/app/workflow/tasks.py — helper functions
   --------------------------------------------------------------------- -/

/-- Helper `determine_outcome_from_intents` from tasks.py. -/
def determine_outcome_from_intents (intents : List String) : String :=
  if intents.contains "test_drive" then "Test drive interest expressed"
  else if intents.contains "pricing" then "Pricing inquiry"
  else if intents.contains "appointment" then "Appointment requested"
  else if intents.contains "purchase_ready" then "Ready to purchase"
  else "General inquiry"

/-- Python `str.strip()`: drop whitespace from both ends. -/
def stripStr (s : String) : String :=
  String.mk (((s.data.dropWhile Char.isWhitespace).reverse.dropWhile Char.isWhitespace).reverse)

/-- Python `str.split(sep)` for a single-character separator.  As in Python,
`"".split('.') = [""]` and separators at the ends produce empty pieces. -/
def splitOnChar (sep : Char) : List Char → List (List Char)
  | [] => [[]]
  | c :: t =>
    if c == sep then [] :: splitOnChar sep t
    else
      match splitOnChar sep t with
      | [] => [[c]]
      | h :: r => (c :: h) :: r

/-- Helper `generate_interaction_summary` from tasks.py: first sentence (split on
'.', stripped, with '.' re-appended), truncated at `max_length` characters
with an ellipsis.  The Python `if sentences:` test is always true because
`str.split` never returns an empty list. -/
def generate_interaction_summary (content : String) (max_length : Nat) : String :=
  if content = "" then "No content available"
  else
    let sentences := splitOnChar '.' content.data
    let summary := stripStr (String.mk (sentences.headD [])) ++ "."
    if summary.length > max_length then String.mk (summary.data.take max_length) ++ "..."
    else summary

/- ---------------------------------------------------------------------
   backend/app/workflow/tasks.py — analyze_interaction_task
   --------------------------------------------------------------------- -/

/-- Task `analyze_interaction_task` from tasks.py, as the transformation it
performs on the fetched `Interaction` row.  Returns the updated row and
the list of `(customer_id, followup_type)` pairs passed to
`schedule_followup_task.delay`, in dispatch order.  The DB fetch, the
not-found retry loop and the commit are the surrounding plumbing; the
row-level effect is exactly this function. -/
def analyze_interaction_task (interaction : Interaction) :
    Interaction × List (Nat × String) :=
  let content := interaction.content.getD ""
  if content = "" then (interaction, [])
  else
    let sentiment := analyze_conversation_sentiment content
    let intents := extract_key_intents content
    let summary := generate_interaction_summary content 200
    let updated := { interaction with
      sentiment := some sentiment
      summary := some summary
      outcome := some (determine_outcome_from_intents intents) }
    let queued :=
      (if intents.contains "test_drive" then [(interaction.customer_id, "test_drive_confirmation")] else [])
      ++ (if intents.contains "pricing" then [(interaction.customer_id, "send_pricing")] else [])
    (updated, queued)

/- ---------------------------------------------------------------------
   backend/app/workflow/tasks.py — daily_lead_nurture_task
   --------------------------------------------------------------------- -/

/-- The slice of database state the nurture job reads: the customer and
interaction tables in database order, and the current time
(`datetime.utcnow()`), in seconds. -/
structure NurtureState where
  customers : List Customer
  interactions : List Interaction
  now : Int

/-- What one run of the nurture job produces: the observability counts it
returns and the `(customer_id, followup_type)` pairs handed to
`schedule_followup_task.delay`, in dispatch order. -/
structure NurtureRun where
  total_warm_leads : Nat
  nurtured : Nat
  queue : List (Nat × String)
deriving Repr, DecidableEq

/-- The timestamp of a customer's most recent interaction: the query
`filter(customer_id == cid).order_by(timestamp.desc()).first()`, of which
only the timestamp is used. -/
def last_interaction_ts (interactions : List Interaction) (cid : Nat) : Option Int :=
  ((interactions.filter (fun i => i.customer_id == cid)).map
    (fun i => i.interaction_timestamp)).max?

/-- The body of the nurture loop of `daily_lead_nurture_task`: a customer
with a last interaction older than three days and a truthy email gets one
`nurture_warm_lead` follow-up dispatched and is counted. -/
def nurture_step (σ : NurtureState) (acc : Nat × List (Nat × String))
    (customer : Customer) : Nat × List (Nat × String) :=
  match last_interaction_ts σ.interactions customer.customer_id with
  | some ts =>
    if ts < σ.now - 3 * 86400 then
      if optTruthy customer.email then
        (acc.1 + 1, acc.2 ++ [(customer.customer_id, "nurture_warm_lead")])
      else acc
    else acc
  | none => acc

/-- Task `daily_lead_nurture_task` from tasks.py: scan Warm-Lead customers; for
each whose last interaction is older than three days (`utcnow() - 3 days`)
and whose email is truthy, dispatch one `nurture_warm_lead` follow-up and
count it. -/
def daily_lead_nurture_task (σ : NurtureState) : NurtureRun :=
  let warm_leads := σ.customers.filter (fun c => c.customer_type == "Warm Lead")
  let run := warm_leads.foldl (nurture_step σ) (0, [])
  { total_warm_leads := warm_leads.length, nurtured := run.1, queue := run.2 }

/-- The condition under which `daily_lead_nurture_task` dispatches a
follow-up for a warm-lead customer. -/
def nurture_qualifies (σ : NurtureState) (c : Customer) : Bool :=
  (match last_interaction_ts σ.interactions c.customer_id with
   | some ts => decide (ts < σ.now - 3 * 86400)
   | none => false) && optTruthy c.email

/- ---------------------------------------------------------------------
   backend/app/agents/lead_intelligence_agent/analyzer.py — prioritize_leads
   --------------------------------------------------------------------- -/

/-- One entry of the list handed to `prioritize_leads`: a dict with the two
keys the function reads (with their `.get` defaults) plus whatever other
keys the caller included (carried through `{**customer, ...}` untouched). -/
structure CustomerData where
  last_conversation : String
  customer_type : String
  rest : List (String × String)
deriving Repr, DecidableEq

/-- The dict produced for each customer by `prioritize_leads`:
`{**customer, 'priority_score': ..., 'engagement_score': ...}`.
`priority_score` is a Python float; it is modelled as an exact rational
(the multiplier table is exact decimal data). -/
structure ScoredCustomer where
  base : CustomerData
  priority_score : ℚ
  engagement_score : Nat
deriving Repr, DecidableEq

/-- The `type_multiplier` dict from `prioritize_leads`. -/
def type_multiplier_table : List (String × ℚ) :=
  [("Hot Lead", 1.5), ("Warm Lead", 1.2), ("Prospect", 1.0), ("Cold Lead", 0.8)]

/-- Dict lookup `type_multiplier.get(customer_type, 1.0)`. -/
def type_multiplier (customer_type : String) : ℚ :=
  (type_multiplier_table.lookup customer_type).getD 1.0

/-- The body of the scoring loop of `prioritize_leads`. -/
def score_customer (customer : CustomerData) : ScoredCustomer :=
  let engagement := calculate_engagement_score customer.last_conversation
  let multiplier := type_multiplier customer.customer_type
  { base := customer
    priority_score := (engagement : ℚ) * multiplier
    engagement_score := engagement }

/-- Insert into a descending-sorted list, after all entries whose score is
strictly greater and before all entries with equal or smaller score. -/
def insertDesc (x : ScoredCustomer) : List ScoredCustomer → List ScoredCustomer
  | [] => [x]
  | y :: ys =>
    if y.priority_score ≤ x.priority_score then x :: y :: ys
    else y :: insertDesc x ys

/-- Stable descending sort by `priority_score`.  Python's
`sorted(..., key=priority_score, reverse=True)` is a stable sort, and a
stable sort under a total preorder is unique as a function of its input,
so any stable implementation (here: insertion sort) denotes it. -/
def sortDesc : List ScoredCustomer → List ScoredCustomer
  | [] => []
  | x :: xs => insertDesc x (sortDesc xs)

/-- Function `prioritize_leads` from analyzer.py. -/
def prioritize_leads (customers_data : List CustomerData) : List ScoredCustomer :=
  sortDesc (customers_data.map score_customer)

/- ---------------------------------------------------------------------
   backend/app/agents/voice_agent/handler.py — the call event router
   --------------------------------------------------------------------- -/

/-- The `artifact` sub-dict of a Vapi message, as read by the handler
(only its `transcript` key is consulted, via `.get("transcript", "")`). -/
structure ArtifactBlock where
  transcript : Option String
deriving Repr, DecidableEq

/-- The `analysis` sub-dict of a Vapi message (only `transcript` is read). -/
structure AnalysisBlock where
  transcript : Option String
deriving Repr, DecidableEq

/-- The inner `message` object of a Vapi webhook payload, restricted to the
keys the handler reads.  `Option.none` models an absent key; the handler's
`isinstance(..., dict)` checks on `artifact` / `analysis` are subsumed by
presence of the corresponding block. -/
structure VapiMessage where
  type : Option String
  id : Option String
  call_id : Option String
  call_customer_number : Option String
  customer_number : Option String
  transcript : Option String
  artifact : Option ArtifactBlock
  analysis : Option AnalysisBlock
deriving Repr, DecidableEq

/-- A task handed to the broker by the webhook path
(`score_lead_task.delay(customer_id, transcript)`). -/
inductive QueuedTask where
  | score_lead (customer_id : Nat) (transcript : String)
deriving Repr, DecidableEq

/-- The state the webhook handlers touch.

Modelled from the spec: the database layer (`core/database.py`, providing
`SessionLocal` / the engine) is not present in the source tree.  It is
modelled as a relational store that enforces exactly the schema declared
by the present model files — main.py runs `Base.metadata.create_all`, so
the constraints of customer_model.py (`first_name` NOT NULL,
`phone_number` NOT NULL and unique, `customer_type` column default
`'Prospect'`) are in force: an INSERT succeeds if and only if it satisfies
them (`customer_insert_ok`), and the primary key is drawn from a counter.
Redis is a set of present keys (`redisUp` mirrors the `redis_client`
handle being available; TTL expiry is not modelled).  `interactions` is
carried so that theorems can speak about whether the webhook path writes
interaction rows. -/
structure SysState where
  customers : List Customer
  interactions : List Interaction
  next_customer_id : Nat
  redis : List String
  redisUp : Bool
  queued : List QueuedTask
deriving Repr, DecidableEq

/-- The transcript-extraction logic of `handle_call_end`: start from
`artifact["transcript"]` when the artifact block is present, fall back to
the top-level `transcript`, then to `analysis["transcript"]`. -/
def extract_transcript (m : VapiMessage) : String :=
  let t0 :=
    match m.artifact with
    | some a => a.transcript.getD ""
    | none => ""
  let t1 := if t0 = "" then m.transcript.getD "" else t0
  if t1 = "" then
    match m.analysis with
    | some a => a.transcript.getD ""
    | none => ""
  else t1

/-- Query `db.query(Customer).filter(Customer.phone_number == number).first()`. -/
def find_customer_by_phone (customers : List Customer) (number : String) : Option Customer :=
  customers.find? (fun c => c.phone_number == number)

/-- The row the handler tries to insert for an unknown caller.
`CustomerCreate(phone_number=n)` is dumped with `exclude_unset=True`, so
only `phone_number` reaches the ORM constructor: the Pydantic defaults for
`first_name` / `last_name` ("Unknown" / "Caller") are unset and therefore
excluded, and the column default fills in `customer_type`.  Note
`first_name = none`: this row violates the `first_name` NOT NULL
constraint declared in customer_model.py, so the INSERT is rejected. -/
def new_caller (next_id : Nat) (number : String) : Customer :=
  { customer_id := next_id
    first_name := none
    last_name := none
    phone_number := number
    email := none
    address := none
    customer_type := "Prospect" }

/-- Whether an INSERT of `c` into the `customers` table satisfies the
constraints declared in customer_model.py (and created by main.py's
`Base.metadata.create_all`): `first_name` NOT NULL, and `phone_number`
unique across the table (`phone_number` NOT NULL holds by type; a NULL
`email` cannot violate the email uniqueness constraint). -/
def customer_insert_ok (customers : List Customer) (c : Customer) : Bool :=
  c.first_name.isSome && customers.all (fun e => !(e.phone_number == c.phone_number))

/-- Handler `handle_call_start` from handler.py: require a call id (else 400), then
mark the call active in Redis when the client is up; always acknowledge
otherwise. -/
def handle_call_start (payload : VapiMessage) (σ : SysState) : SysState × Nat :=
  let call_id := payload.call_id
  if !(optTruthy call_id) then (σ, 400)
  else if !σ.redisUp then (σ, 200)
  else ({ σ with redis := σ.redis ++ [("call_active_" ++ call_id.getD "")] }, 200)

/-- Resolution of `call_id = call.get("id")`, falling back to the message-level `id` when
the former is falsy. -/
def resolved_call_id (payload : VapiMessage) : Option String :=
  if optTruthy payload.call_id then payload.call_id else payload.id

/-- The Redis key `f"call_active_{call_id}"` used by both handlers. -/
def call_marker_key (payload : VapiMessage) : String :=
  "call_active_" ++ (resolved_call_id payload).getD ""

/-- Handler `handle_call_end` from handler.py: resolve the call id (falling back to
the message-level `id`), extract the transcript, resolve the customer by
phone number — or, for an unknown number, attempt the INSERT built from the
`exclude_unset` dump, which the schema rejects (`first_name` NOT NULL), the
`except` at handler.py:152-158 rolls back, and `customer_id_for_task`
stays `None` — enqueue `score_lead_task` when both a customer id and a
non-empty transcript are available, delete the `call_active_` Redis key,
and always return 200. -/
def handle_call_end (payload : VapiMessage) (σ : SysState) : SysState × Nat :=
  let call_id := resolved_call_id payload
  let customer_number := payload.customer_number
  let transcript := extract_transcript payload
  let afterCustomer : SysState × Option Nat :=
    if optTruthy customer_number then
      let number := customer_number.getD ""
      match find_customer_by_phone σ.customers number with
      | some customer => (σ, some customer.customer_id)
      | none =>
        let new_customer := new_caller σ.next_customer_id number
        if customer_insert_ok σ.customers new_customer then
          ({ σ with
              customers := σ.customers ++ [new_customer]
              next_customer_id := σ.next_customer_id + 1 },
           some σ.next_customer_id)
        else (σ, none)
    else (σ, none)
  let σ1 := afterCustomer.1
  let σ2 :=
    match afterCustomer.2 with
    | some cid =>
      if transcript ≠ "" then
        { σ1 with queued := σ1.queued ++ [QueuedTask.score_lead cid transcript] }
      else σ1
    | none => σ1
  let σ3 :=
    if σ.redisUp ∧ optTruthy call_id then
      { σ2 with redis := σ2.redis.filter (fun k => k ≠ call_marker_key payload) }
    else σ2
  (σ3, 200)

/-- The body of the inbound webhook request, after the framework and
`json.loads` have classified it:
* `empty` — no body bytes;
* `malformed` — `json.loads` raises;
* `nonObjectBody` — the body parses but the value is not a JSON object
  (list / string / number / null), so `payload.get("message", {})` raises
  `AttributeError`;
* `nonDictMessage` — an object body whose `"message"` value is truthy but
  not a dict (e.g. a non-empty string), so `message.get("type", ...)`
  raises `AttributeError`;
* `parsed none` — an object body whose `"message"` member is missing or
  falsy (`{}`, `null`, `""`, `0`, ...);
* `parsed (some m)` — an object body with a usable `message` object. -/
inductive WebhookBody where
  | empty
  | malformed
  | nonObjectBody
  | nonDictMessage
  | parsed (message : Option VapiMessage)

/-- Endpoint `vapi_server_webhook` from handler.py: empty body → 200; JSON decode
error → 400; missing/empty `message` → 400; a non-object body or a truthy
non-dict `message` raises `AttributeError`, which the generic
`except Exception` at handler.py:248-251 answers with 500; otherwise
dispatch on `message.get("type", "unknown")`, acknowledging unhandled
types with 200. -/
def vapi_server_webhook (body : WebhookBody) (σ : SysState) : SysState × Nat :=
  match body with
  | .empty => (σ, 200)
  | .malformed => (σ, 400)
  | .nonObjectBody => (σ, 500)
  | .nonDictMessage => (σ, 500)
  | .parsed none => (σ, 400)
  | .parsed (some message) =>
    let message_type := message.type.getD "unknown"
    if message_type = "call-start" then handle_call_start message σ
    else if message_type = "call-end" ∨ message_type = "end-of-call-report" then
      handle_call_end message σ
    else (σ, 200)

/-- First non-empty string of a list (and `""` when all are empty): the
shape of a priority-ordered fallback chain. -/
def first_non_empty : List String → String
  | [] => ""
  | s :: rest => if s = "" then first_non_empty rest else s

/-- The transcript priority order as the specification words it: primary
top-level `transcript` field first, then the `analysis` block, then the
`artifact` block.  Stated only to be compared against the code's
`extract_transcript`. -/
def claimed_transcript_order (m : VapiMessage) : String :=
  first_non_empty
    [m.transcript.getD "",
     (match m.analysis with
      | some a => a.transcript.getD ""
      | none => ""),
     (match m.artifact with
      | some a => a.transcript.getD ""
      | none => "")]

/- ---------------------------------------------------------------------
   Helper lemmas: the substring test
   --------------------------------------------------------------------- -/

theorem leadsWith_self_append (n rest : List Char) : leadsWith n (n ++ rest) = true := by
  induction n with
  | nil => rfl
  | cons a as ih => simp [leadsWith, ih]

theorem hasSubList_self_append (n post : List Char) : hasSubList n (n ++ post) = true := by
  cases n with
  | nil => cases post <;> simp [hasSubList, leadsWith]
  | cons a as =>
    have h := leadsWith_self_append (a :: as) post
    rw [List.cons_append] at h
    rw [List.cons_append, hasSubList]
    simp [h]

theorem hasSubList_of_parts (n pre post : List Char) :
    hasSubList n (pre ++ (n ++ post)) = true := by
  induction pre with
  | nil => simpa using hasSubList_self_append n post
  | cons c t ih => simp [hasSubList, ih]

theorem leadsWith_exists {n h : List Char} (hlw : leadsWith n h = true) :
    ∃ rest, h = n ++ rest := by
  induction n generalizing h with
  | nil => exact ⟨h, rfl⟩
  | cons a as ih =>
    cases h with
    | nil => simp [leadsWith] at hlw
    | cons b bs =>
      simp only [leadsWith, Bool.and_eq_true, beq_iff_eq] at hlw
      obtain ⟨rest, hr⟩ := ih hlw.2
      exact ⟨rest, by simp [hlw.1, hr]⟩

theorem hasSubList_exists {n h : List Char} (hs : hasSubList n h = true) :
    ∃ pre post, h = pre ++ (n ++ post) := by
  induction h with
  | nil =>
    cases n with
    | nil => exact ⟨[], [], rfl⟩
    | cons a as => simp [hasSubList, leadsWith] at hs
  | cons c t ih =>
    rw [hasSubList, Bool.or_eq_true] at hs
    rcases hs with h1 | h2
    · obtain ⟨rest, hr⟩ := leadsWith_exists h1
      exact ⟨[], rest, by simpa using hr⟩
    · obtain ⟨pre, post, hp⟩ := ih h2
      exact ⟨c :: pre, post, by simp [hp]⟩

theorem hasSubList_trans {a b c : List Char} (hab : hasSubList a b = true)
    (hbc : hasSubList b c = true) : hasSubList a c = true := by
  obtain ⟨p1, q1, h1⟩ := hasSubList_exists hab
  obtain ⟨p2, q2, h2⟩ := hasSubList_exists hbc
  subst h1
  subst h2
  have h := hasSubList_of_parts a (p2 ++ p1) (q1 ++ q2)
  simpa [List.append_assoc] using h

/-- If the haystack contains `a` and `a` contains `b`, the haystack
contains `b` (used to discharge the crore/lakh/million guard). -/
theorem strContains_trans {t a b : String} (h1 : strContains t a = true)
    (h2 : strContains a b = true) : strContains t b = true :=
  hasSubList_trans h2 h1

/- ---------------------------------------------------------------------
   Helper lemmas: the stable descending sort of prioritize_leads
   --------------------------------------------------------------------- -/

theorem insertDesc_perm (x : ScoredCustomer) (l : List ScoredCustomer) :
    (insertDesc x l).Perm (x :: l) := by
  induction l with
  | nil => exact List.Perm.refl _
  | cons y ys ih =>
    rw [insertDesc]
    split
    · exact List.Perm.refl _
    · exact List.Perm.trans (ih.cons y) (List.Perm.swap x y ys)

theorem insertDesc_pairwise (x : ScoredCustomer) (l : List ScoredCustomer)
    (h : l.Pairwise (fun a b => b.priority_score ≤ a.priority_score)) :
    (insertDesc x l).Pairwise (fun a b => b.priority_score ≤ a.priority_score) := by
  induction l with
  | nil => simp [insertDesc]
  | cons y ys ih =>
    rw [List.pairwise_cons] at h
    obtain ⟨hy, hys⟩ := h
    rw [insertDesc]
    by_cases hxy : y.priority_score ≤ x.priority_score
    · rw [if_pos hxy]
      refine List.Pairwise.cons ?_ (List.Pairwise.cons hy hys)
      intro z hz
      rcases List.mem_cons.mp hz with rfl | hz'
      · exact hxy
      · exact le_trans (hy z hz') hxy
    · rw [if_neg hxy]
      refine List.Pairwise.cons ?_ (ih hys)
      intro z hz
      have hz' := (insertDesc_perm x ys).mem_iff.mp hz
      rcases List.mem_cons.mp hz' with rfl | hz''
      · exact le_of_not_le hxy
      · exact hy z hz''

theorem sortDesc_perm (l : List ScoredCustomer) : (sortDesc l).Perm l := by
  induction l with
  | nil => exact List.Perm.refl _
  | cons x xs ih =>
    exact List.Perm.trans (insertDesc_perm x (sortDesc xs)) (ih.cons x)

theorem sortDesc_pairwise (l : List ScoredCustomer) :
    (sortDesc l).Pairwise (fun a b => b.priority_score ≤ a.priority_score) := by
  induction l with
  | nil => simp [sortDesc]
  | cons x xs ih => exact insertDesc_pairwise x (sortDesc xs) ih

theorem insertDesc_filter_pos {x : ScoredCustomer} {q : ℚ}
    (hx : x.priority_score = q) (l : List ScoredCustomer) :
    (insertDesc x l).filter (fun a => decide (a.priority_score = q))
      = x :: l.filter (fun a => decide (a.priority_score = q)) := by
  induction l with
  | nil => simp [insertDesc, hx]
  | cons y ys ih =>
    rw [insertDesc]
    by_cases hxy : y.priority_score ≤ x.priority_score
    · rw [if_pos hxy]
      simp [List.filter_cons, hx]
    · rw [if_neg hxy]
      have hyq : ¬(y.priority_score = q) := by
        intro e
        exact hxy (le_of_eq (by rw [e, hx]))
      simp [List.filter_cons, hyq, ih]

theorem insertDesc_filter_neg {x : ScoredCustomer} {q : ℚ}
    (hx : ¬(x.priority_score = q)) (l : List ScoredCustomer) :
    (insertDesc x l).filter (fun a => decide (a.priority_score = q))
      = l.filter (fun a => decide (a.priority_score = q)) := by
  induction l with
  | nil => simp [insertDesc, hx]
  | cons y ys ih =>
    rw [insertDesc]
    by_cases hxy : y.priority_score ≤ x.priority_score
    · rw [if_pos hxy]
      simp [List.filter_cons, hx]
    · rw [if_neg hxy]
      simp [List.filter_cons, ih]

theorem sortDesc_filter (l : List ScoredCustomer) (q : ℚ) :
    (sortDesc l).filter (fun a => decide (a.priority_score = q))
      = l.filter (fun a => decide (a.priority_score = q)) := by
  induction l with
  | nil => rfl
  | cons x xs ih =>
    rw [sortDesc]
    by_cases hx : x.priority_score = q
    · rw [insertDesc_filter_pos hx, ih]
      simp [List.filter_cons, hx]
    · rw [insertDesc_filter_neg hx, ih]
      simp [List.filter_cons, hx]

/- ---------------------------------------------------------------------
   Helper lemmas: the nurture fold and counting dispatches
   --------------------------------------------------------------------- -/

theorem nurture_step_eq (σ : NurtureState) (acc : Nat × List (Nat × String))
    (c : Customer) :
    nurture_step σ acc c
      = if nurture_qualifies σ c then
          (acc.1 + 1, acc.2 ++ [(c.customer_id, "nurture_warm_lead")])
        else acc := by
  cases h : last_interaction_ts σ.interactions c.customer_id with
  | none =>
    have hq : nurture_qualifies σ c = false := by
      unfold nurture_qualifies
      rw [h]
      simp
    rw [hq]
    unfold nurture_step
    rw [h]
    simp
  | some ts =>
    have hq : nurture_qualifies σ c
        = (decide (ts < σ.now - 3 * 86400) && optTruthy c.email) := by
      unfold nurture_qualifies
      rw [h]
    rw [hq]
    unfold nurture_step
    rw [h]
    dsimp only
    by_cases h1 : ts < σ.now - 3 * 86400
    · by_cases h2 : optTruthy c.email = true
      · rw [if_pos h1, if_pos h2, if_pos (by rw [decide_eq_true h1, h2]; rfl)]
      · rw [Bool.not_eq_true] at h2
        rw [if_pos h1, if_neg (by rw [h2]; simp), if_neg (by rw [h2, Bool.and_false]; simp)]
    · rw [if_neg h1, if_neg (by rw [decide_eq_false h1, Bool.false_and]; simp)]

theorem nurture_foldl (σ : NurtureState) (l : List Customer)
    (acc : Nat × List (Nat × String)) :
    l.foldl (nurture_step σ) acc
      = (acc.1 + (l.filter (nurture_qualifies σ)).length,
         acc.2 ++ (l.filter (nurture_qualifies σ)).map
           (fun c => (c.customer_id, "nurture_warm_lead"))) := by
  induction l generalizing acc with
  | nil => simp
  | cons c t ih =>
    rw [List.foldl_cons, nurture_step_eq]
    by_cases hq : nurture_qualifies σ c
    · rw [if_pos hq, ih]
      refine Prod.ext ?_ ?_ <;> simp [List.filter_cons, hq]
      omega
    · rw [if_neg hq, ih]
      simp [List.filter_cons, hq]

theorem countP_unique_id (l : List Customer) (p : Customer → Bool) :
    ∀ c, c ∈ l → (l.map (fun x => x.customer_id)).Nodup →
      l.countP (fun x => p x && (x.customer_id == c.customer_id))
        = if p c then 1 else 0 := by
  induction l with
  | nil => intro c hc; cases hc
  | cons h t ih =>
    intro c hc hnd
    rw [List.map_cons, List.nodup_cons] at hnd
    obtain ⟨hnotin, hndt⟩ := hnd
    rw [List.countP_cons]
    rcases List.mem_cons.mp hc with rfl | hct
    · have ht0 : t.countP (fun x => p x && (x.customer_id == c.customer_id)) = 0 := by
        rw [List.countP_eq_zero]
        intro x hx
        simp only [Bool.and_eq_true, beq_iff_eq, not_and]
        intro _ hid
        exact absurd (List.mem_map.mpr ⟨x, hx, hid⟩) hnotin
      simp [ht0]
    · have hne : ¬(h.customer_id == c.customer_id) = true := by
        simp only [beq_iff_eq]
        intro e
        exact hnotin (e ▸ List.mem_map.mpr ⟨c, hct, rfl⟩)
      rw [ih c hct hndt]
      simp [Bool.and_eq_true, hne]

/- ---------------------------------------------------------------------
   Claim theorems
   --------------------------------------------------------------------- -/

/-- Claim C4: `score_lead_from_text` checks the fixed hot-keyword list
first, then warm, then cold, and the first list with any substring match
wins; empty input returns "Cold Lead"; a text containing a hot keyword
returns "Hot Lead" even if it also contains warm or cold keywords;
non-empty text matching none of the three lists returns "Warm Lead". -/
theorem C4_score_lead_priority :
    score_lead_from_text "" = "Cold Lead"
    ∧ (∀ t, HOT_KEYWORDS.any (fun kw => strContains (lowerStr t) kw) = true →
        score_lead_from_text t = "Hot Lead")
    ∧ (∀ t, t ≠ "" →
        HOT_KEYWORDS.any (fun kw => strContains (lowerStr t) kw) = false →
        WARM_KEYWORDS.any (fun kw => strContains (lowerStr t) kw) = true →
        score_lead_from_text t = "Warm Lead")
    ∧ (∀ t, t ≠ "" →
        HOT_KEYWORDS.any (fun kw => strContains (lowerStr t) kw) = false →
        WARM_KEYWORDS.any (fun kw => strContains (lowerStr t) kw) = false →
        COLD_KEYWORDS.any (fun kw => strContains (lowerStr t) kw) = true →
        score_lead_from_text t = "Cold Lead")
    ∧ (∀ t, t ≠ "" →
        HOT_KEYWORDS.any (fun kw => strContains (lowerStr t) kw) = false →
        WARM_KEYWORDS.any (fun kw => strContains (lowerStr t) kw) = false →
        COLD_KEYWORDS.any (fun kw => strContains (lowerStr t) kw) = false →
        score_lead_from_text t = "Warm Lead") := by
  refine ⟨by decide, ?_, ?_, ?_, ?_⟩
  · intro t hhot
    by_cases ht : t = ""
    · subst ht
      exact absurd hhot (by decide)
    · simp [score_lead_from_text, ht, hhot]
  · intro t ht hhot hwarm
    simp [score_lead_from_text, ht, hhot, hwarm]
  · intro t ht hhot hwarm hcold
    simp [score_lead_from_text, ht, hhot, hwarm, hcold]
  · intro t ht hhot hwarm hcold
    simp [score_lead_from_text, ht, hhot, hwarm, hcold]

/-- Witness for C4 at concrete inputs: a hot keyword wins over a
co-occurring cold keyword; warm beats cold; cold-only is cold; no keyword
at all falls through to warm. -/
theorem C4_score_lead_priority_witness :
    score_lead_from_text "READY TO PURCHASE but just looking" = "Hot Lead"
    ∧ score_lead_from_text "interested, maybe later" = "Warm Lead"
    ∧ score_lead_from_text "just looking" = "Cold Lead"
    ∧ score_lead_from_text "hello there" = "Warm Lead" :=
  ⟨C4_score_lead_priority.2.1 "READY TO PURCHASE but just looking" (by decide),
   C4_score_lead_priority.2.2.1 "interested, maybe later" (by decide) (by decide) (by decide),
   C4_score_lead_priority.2.2.2.1 "just looking" (by decide) (by decide) (by decide) (by decide),
   C4_score_lead_priority.2.2.2.2 "hello there" (by decide) (by decide) (by decide) (by decide)⟩

/-- Claim C5: `calculate_engagement_score` always lands in `[0, 100]`
(scores are naturals, so only the upper bound is substantive), empty text
scores 0, the detected-intent list is duplicate-free (so its length is the
distinct-intent count), and non-empty text scores exactly the additive
formula clamped at 100. -/
theorem C5_engagement_score :
    (∀ t, calculate_engagement_score t ≤ 100)
    ∧ calculate_engagement_score "" = 0
    ∧ (∀ t, (extract_key_intents t).Nodup)
    ∧ (∀ t, t ≠ "" →
        calculate_engagement_score t =
          min ((if word_count t > 100 then 30 else if word_count t > 50 then 20 else 10)
            + min ((extract_key_intents t).length * 15) 40
            + (if analyze_conversation_sentiment t = "Positive" then 20
               else if analyze_conversation_sentiment t = "Neutral" then 10 else 0)
            + min (question_count t * 5) 10) 100) := by
  refine ⟨?_, by decide, ?_, ?_⟩
  · intro t
    unfold calculate_engagement_score
    by_cases ht : t = ""
    · simp [ht]
    · rw [if_neg ht]
      exact Nat.min_le_right _ _
  · intro t
    unfold extract_key_intents
    by_cases ht : t = ""
    · simp [ht]
    · rw [if_neg ht]
      dsimp only
      have hsub :
          ((INTENT_KEYWORDS.filter
            (fun p => p.2.any (fun keyword => strContains (lowerStr t) keyword))).map
            (fun p => p.1)).Sublist (INTENT_KEYWORDS.map (fun p => p.1)) :=
        List.Sublist.map _ (List.filter_sublist _)
      exact List.Nodup.sublist hsub (by decide)
  · intro t ht
    simp [calculate_engagement_score, ht]

/-- Witness for C5 at a concrete input (two intents, a question mark,
positive sentiment, short text). -/
theorem C5_engagement_score_witness :
    calculate_engagement_score "I love it! what is the price? can I test drive it?" =
      min ((if word_count "I love it! what is the price? can I test drive it?" > 100 then 30
            else if word_count "I love it! what is the price? can I test drive it?" > 50 then 20
            else 10)
        + min ((extract_key_intents "I love it! what is the price? can I test drive it?").length * 15) 40
        + (if analyze_conversation_sentiment "I love it! what is the price? can I test drive it?" = "Positive" then 20
           else if analyze_conversation_sentiment "I love it! what is the price? can I test drive it?" = "Neutral" then 10
           else 0)
        + min (question_count "I love it! what is the price? can I test drive it?" * 5) 10) 100
    ∧ calculate_engagement_score "I love it! what is the price? can I test drive it?" ≤ 100 :=
  ⟨C5_engagement_score.2.2.2 "I love it! what is the price? can I test drive it?" (by decide),
   C5_engagement_score.1 "I love it! what is the price? can I test drive it?"⟩

/-- Claim C6: `analyze_conversation_sentiment` returns one of the three
labels, and returns "Positive" iff the positive presence count strictly
exceeds the negative one and is positive, "Negative" iff the strict
reverse, and "Neutral" otherwise (ties, zero-zero and empty text
included).  The function is pure by construction (it is a Lean function
of its argument alone). -/
theorem C6_sentiment_cases :
    ∀ t,
      (analyze_conversation_sentiment t = "Positive"
        ∨ analyze_conversation_sentiment t = "Negative"
        ∨ analyze_conversation_sentiment t = "Neutral")
      ∧ (analyze_conversation_sentiment t = "Positive"
          ↔ POSITIVE_KEYWORDS.countP (fun kw => strContains (lowerStr t) kw)
              > NEGATIVE_KEYWORDS.countP (fun kw => strContains (lowerStr t) kw)
            ∧ POSITIVE_KEYWORDS.countP (fun kw => strContains (lowerStr t) kw) > 0)
      ∧ (analyze_conversation_sentiment t = "Negative"
          ↔ NEGATIVE_KEYWORDS.countP (fun kw => strContains (lowerStr t) kw)
              > POSITIVE_KEYWORDS.countP (fun kw => strContains (lowerStr t) kw)
            ∧ NEGATIVE_KEYWORDS.countP (fun kw => strContains (lowerStr t) kw) > 0)
      ∧ (analyze_conversation_sentiment t = "Neutral"
          ↔ ¬(POSITIVE_KEYWORDS.countP (fun kw => strContains (lowerStr t) kw)
               > NEGATIVE_KEYWORDS.countP (fun kw => strContains (lowerStr t) kw)
             ∧ POSITIVE_KEYWORDS.countP (fun kw => strContains (lowerStr t) kw) > 0)
            ∧ ¬(NEGATIVE_KEYWORDS.countP (fun kw => strContains (lowerStr t) kw)
               > POSITIVE_KEYWORDS.countP (fun kw => strContains (lowerStr t) kw)
             ∧ NEGATIVE_KEYWORDS.countP (fun kw => strContains (lowerStr t) kw) > 0)) := by
  intro t
  by_cases ht : t = ""
  · subst ht
    decide
  · unfold analyze_conversation_sentiment
    rw [if_neg ht]
    dsimp only
    set pc := POSITIVE_KEYWORDS.countP (fun kw => strContains (lowerStr t) kw) with hpc
    set nc := NEGATIVE_KEYWORDS.countP (fun kw => strContains (lowerStr t) kw) with hnc
    by_cases h1 : pc > nc ∧ pc > 0
    · rw [if_pos h1]
      refine ⟨Or.inl rfl, ⟨fun _ => h1, fun _ => rfl⟩, ?_, ?_⟩
      · constructor
        · intro he
          exact absurd he (by decide)
        · intro hc
          exfalso
          omega
      · constructor
        · intro he
          exact absurd he (by decide)
        · intro hc
          exact absurd h1 hc.1
    · rw [if_neg h1]
      by_cases h2 : nc > pc ∧ nc > 0
      · rw [if_pos h2]
        refine ⟨Or.inr (Or.inl rfl), ?_, ⟨fun _ => h2, fun _ => rfl⟩, ?_⟩
        · constructor
          · intro he
            exact absurd he (by decide)
          · intro hc
            exfalso
            omega
        · constructor
          · intro he
            exact absurd he (by decide)
          · intro hc
            exact absurd h2 hc.2
      · rw [if_neg h2]
        refine ⟨Or.inr (Or.inr rfl), ?_, ?_, ⟨fun _ => ⟨h1, h2⟩, fun _ => rfl⟩⟩
        · constructor
          · intro he
            exact absurd he (by decide)
          · intro hc
            exact absurd hc h1
        · constructor
          · intro he
            exact absurd he (by decide)
          · intro hc
            exact absurd hc h2

/-- Claim C9: `prioritize_leads` scores every customer as
`engagement_score(last_conversation) × tier_multiplier(customer_type)`
with multipliers 1.5 / 1.2 / 1.0 / 0.8 (1.0 for unknown tiers) and returns
the scored list sorted descending by `priority_score` with a stable sort:
entries with identical scores keep their input order (stated as: filtering
the output at any score value reproduces the corresponding sublist of the
scored input, in order).  Floats are modelled as exact rationals. -/
theorem C9_prioritize_leads_spec :
    (type_multiplier "Hot Lead" = 1.5 ∧ type_multiplier "Warm Lead" = 1.2
      ∧ type_multiplier "Prospect" = 1.0 ∧ type_multiplier "Cold Lead" = 0.8
      ∧ (∀ t, t ≠ "Hot Lead" → t ≠ "Warm Lead" → t ≠ "Prospect" → t ≠ "Cold Lead" →
          type_multiplier t = 1.0))
    ∧ (∀ l, (prioritize_leads l).Perm (l.map score_customer))
    ∧ (∀ l, (prioritize_leads l).Pairwise
        (fun a b => b.priority_score ≤ a.priority_score))
    ∧ (∀ l x, x ∈ prioritize_leads l →
        x.priority_score
          = (calculate_engagement_score x.base.last_conversation : ℚ)
            * type_multiplier x.base.customer_type)
    ∧ (∀ l q, (prioritize_leads l).filter (fun x => decide (x.priority_score = q))
        = (l.map score_customer).filter (fun x => decide (x.priority_score = q))) := by
  refine ⟨⟨rfl, rfl, rfl, rfl, ?_⟩, ?_, ?_, ?_, ?_⟩
  · intro t h1 h2 h3 h4
    have b1 : (t == "Hot Lead") = false := beq_eq_false_iff_ne.mpr h1
    have b2 : (t == "Warm Lead") = false := beq_eq_false_iff_ne.mpr h2
    have b3 : (t == "Prospect") = false := beq_eq_false_iff_ne.mpr h3
    have b4 : (t == "Cold Lead") = false := beq_eq_false_iff_ne.mpr h4
    simp [type_multiplier, type_multiplier_table, List.lookup, b1, b2, b3, b4]
  · intro l
    exact sortDesc_perm _
  · intro l
    exact sortDesc_pairwise _
  · intro l x hx
    rw [prioritize_leads] at hx
    have hx' := (sortDesc_perm (l.map score_customer)).mem_iff.mp hx
    obtain ⟨c, _, hcx⟩ := List.mem_map.mp hx'
    subst hcx
    rfl
  · intro l q
    exact sortDesc_filter _ _

/-- Witness for C9: a two-element input with a score tie (both engagement 0)
keeps its input order among ties; a concrete unknown tier multiplies by 1;
a concrete member of the output carries the product score. -/
theorem C9_prioritize_leads_spec_witness :
    type_multiplier "VIP" = 1.0
    ∧ (prioritize_leads
          [⟨"", "Hot Lead", [("name", "a")]⟩, ⟨"", "Prospect", [("name", "b")]⟩]).filter
          (fun x => decide (x.priority_score = 0))
        = ([⟨"", "Hot Lead", [("name", "a")]⟩, ⟨"", "Prospect", [("name", "b")]⟩].map
            score_customer).filter (fun x => decide (x.priority_score = 0))
    ∧ (score_customer ⟨"", "Hot Lead", [("name", "a")]⟩).priority_score
        = (calculate_engagement_score "" : ℚ) * type_multiplier "Hot Lead" := by
  have hmem : score_customer ⟨"", "Hot Lead", [("name", "a")]⟩
      ∈ prioritize_leads
          [⟨"", "Hot Lead", [("name", "a")]⟩, ⟨"", "Prospect", [("name", "b")]⟩] := by
    have h1 : (score_customer ⟨"", "Prospect", [("name", "b")]⟩).priority_score
        ≤ (score_customer ⟨"", "Hot Lead", [("name", "a")]⟩).priority_score := by
      simp [score_customer, calculate_engagement_score]
    simp [prioritize_leads, sortDesc, insertDesc, h1]
  exact
    ⟨C9_prioritize_leads_spec.1.2.2.2.2 "VIP" (by decide) (by decide) (by decide) (by decide),
     C9_prioritize_leads_spec.2.2.2.2
       [⟨"", "Hot Lead", [("name", "a")]⟩, ⟨"", "Prospect", [("name", "b")]⟩] 0,
     C9_prioritize_leads_spec.2.2.2.1
       [⟨"", "Hot Lead", [("name", "a")]⟩, ⟨"", "Prospect", [("name", "b")]⟩]
       (score_customer ⟨"", "Hot Lead", [("name", "a")]⟩) hmem⟩

/-- Claim C3 counterexample: a parseable body that is not a JSON object
(e.g. `[1,2,3]`) has no `message` wrapper, yet the endpoint answers 500 —
`payload.get` raises `AttributeError` and the generic exception handler at
handler.py:248-251 responds — not the 400 the claim requires for every
parseable body with a missing `message` wrapper. -/
theorem C3_webhook_envelope_counterexample :
    vapi_server_webhook WebhookBody.nonObjectBody ⟨[], [], 1, [], true, []⟩
      = (⟨[], [], 1, [], true, []⟩, 500)
    ∧ (500 : Nat) ≠ 400 :=
  ⟨rfl, by decide⟩

/-- Claim C3 (amended): empty body → 200 with the state untouched;
unparseable JSON → 400; a parseable JSON-object body whose `message`
member is missing or falsy → 400; a parseable body that is not a JSON
object, or whose `message` member is truthy but not an object, escapes as
an `AttributeError` to the generic exception handler and → 500; a
well-formed envelope with an unrecognized event type → 200 and no
action. -/
theorem C3_webhook_envelope_amended :
    (∀ σ, vapi_server_webhook WebhookBody.empty σ = (σ, 200))
    ∧ (∀ σ, vapi_server_webhook WebhookBody.malformed σ = (σ, 400))
    ∧ (∀ σ, vapi_server_webhook (WebhookBody.parsed none) σ = (σ, 400))
    ∧ (∀ σ, vapi_server_webhook WebhookBody.nonObjectBody σ = (σ, 500))
    ∧ (∀ σ, vapi_server_webhook WebhookBody.nonDictMessage σ = (σ, 500))
    ∧ (∀ σ m, m.type.getD "unknown" ≠ "call-start" →
        m.type.getD "unknown" ≠ "call-end" →
        m.type.getD "unknown" ≠ "end-of-call-report" →
        vapi_server_webhook (WebhookBody.parsed (some m)) σ = (σ, 200)) := by
  refine ⟨fun σ => rfl, fun σ => rfl, fun σ => rfl, fun σ => rfl, fun σ => rfl, ?_⟩
  intro σ m h1 h2 h3
  simp [vapi_server_webhook, h1, h2, h3]

/-- Witness for C3: a parsed envelope carrying the (real) Vapi event type
`"status-update"` is acknowledged with 200 and no state change. -/
theorem C3_webhook_envelope_amended_witness :
    vapi_server_webhook
        (WebhookBody.parsed (some ⟨some "status-update", none, none, none, none, none, none, none⟩))
        ⟨[], [], 1, [], true, []⟩
      = (⟨[], [], 1, [], true, []⟩, 200) :=
  C3_webhook_envelope_amended.2.2.2.2.2 ⟨[], [], 1, [], true, []⟩
    ⟨some "status-update", none, none, none, none, none, none, none⟩
    (by decide) (by decide) (by decide)

/-- Claim C2 counterexample: the claim puts the primary top-level transcript
field first, but on a payload whose artifact transcript is "A" and whose
top-level transcript is "B" the handler extracts "A" — the artifact block
wins, so the claimed priority order is wrong. -/
theorem C2_transcript_order_counterexample :
    extract_transcript ⟨some "end-of-call-report", none, none, none, none,
        some "B", some ⟨some "A"⟩, none⟩ = "A"
    ∧ claimed_transcript_order ⟨some "end-of-call-report", none, none, none, none,
        some "B", some ⟨some "A"⟩, none⟩ = "B"
    ∧ ("A" : String) ≠ "B" :=
  ⟨by decide, by decide, by decide⟩

/-- Claim C2 (amended): the transcript is the first non-empty value among
the artifact block's transcript, then the top-level transcript field, then
the analysis block's transcript — in that priority order. -/
theorem C2_transcript_order_amended :
    ∀ m : VapiMessage,
      extract_transcript m
        = first_non_empty
            [(match m.artifact with
              | some a => a.transcript.getD ""
              | none => ""),
             m.transcript.getD "",
             (match m.analysis with
              | some a => a.transcript.getD ""
              | none => "")] := by
  intro m
  cases ha : m.artifact <;> cases hn : m.analysis <;>
    simp only [extract_transcript, first_non_empty, ha, hn] <;>
    split_ifs <;> simp_all [first_non_empty]

/-- Claim C10 counterexample: a text containing the trigger "20000000" but
no currency word fails the crore/lakh/million guard, so `price_range`
stays unset instead of becoming "2-5 Crores" as claimed. -/
theorem C10_price_range_counterexample :
    strContains (lowerStr "Our budget is 20000000") "20000000" = true
    ∧ (extract_vehicle_preferences "Our budget is 20000000").price_range = none
    ∧ (extract_vehicle_preferences "Our budget is 20000000").price_range ≠ some "2-5 Crores" :=
  ⟨by decide, by decide, by decide⟩

/-- Claim C10 (amended): `price_range` is only ever set when the text also
contains one of "crore" / "lakh" / "million"; under that guard the first
matching rule in order wins ("2 crore"/"20000000" → "2-5 Crores", else
"5 crore"/"50000000" → "5-10 Crores", else "10 crore" → "10+ Crores");
texts containing "2 crore" (resp. "5 crore", "10 crore", modulo earlier
rules) satisfy the guard automatically; with no trigger present
`price_range` is unset. -/
theorem C10_price_range_amended :
    (∀ t, (["crore", "lakh", "million"].any (fun w => strContains (lowerStr t) w)) = false →
        (extract_vehicle_preferences t).price_range = none)
    ∧ (∀ t, strContains (lowerStr t) "2 crore" = true →
        (extract_vehicle_preferences t).price_range = some "2-5 Crores")
    ∧ (∀ t, (["crore", "lakh", "million"].any (fun w => strContains (lowerStr t) w)) = true →
        strContains (lowerStr t) "20000000" = true →
        (extract_vehicle_preferences t).price_range = some "2-5 Crores")
    ∧ (∀ t, strContains (lowerStr t) "2 crore" = false →
        strContains (lowerStr t) "20000000" = false →
        strContains (lowerStr t) "5 crore" = true →
        (extract_vehicle_preferences t).price_range = some "5-10 Crores")
    ∧ (∀ t, (["crore", "lakh", "million"].any (fun w => strContains (lowerStr t) w)) = true →
        strContains (lowerStr t) "2 crore" = false →
        strContains (lowerStr t) "20000000" = false →
        strContains (lowerStr t) "50000000" = true →
        (extract_vehicle_preferences t).price_range = some "5-10 Crores")
    ∧ (∀ t, strContains (lowerStr t) "2 crore" = false →
        strContains (lowerStr t) "20000000" = false →
        strContains (lowerStr t) "5 crore" = false →
        strContains (lowerStr t) "50000000" = false →
        strContains (lowerStr t) "10 crore" = true →
        (extract_vehicle_preferences t).price_range = some "10+ Crores")
    ∧ (∀ t, strContains (lowerStr t) "2 crore" = false →
        strContains (lowerStr t) "20000000" = false →
        strContains (lowerStr t) "5 crore" = false →
        strContains (lowerStr t) "50000000" = false →
        strContains (lowerStr t) "10 crore" = false →
        (extract_vehicle_preferences t).price_range = none) := by
  refine ⟨?_, ?_, ?_, ?_, ?_, ?_, ?_⟩
  · intro t hg
    simp [extract_vehicle_preferences, hg]
  · intro t h2
    have hcr : strContains (lowerStr t) "crore" = true :=
      strContains_trans h2 (by decide)
    simp [extract_vehicle_preferences, hcr, h2]
  · intro t hg h20
    simp [extract_vehicle_preferences, hg, h20]
  · intro t h2 h20 h5
    have hcr : strContains (lowerStr t) "crore" = true :=
      strContains_trans h5 (by decide)
    simp [extract_vehicle_preferences, hcr, h2, h20, h5]
  · intro t hg h2 h20 h50
    simp [extract_vehicle_preferences, hg, h2, h20, h50]
  · intro t h2 h20 h5 h50 h10
    have hcr : strContains (lowerStr t) "crore" = true :=
      strContains_trans h10 (by decide)
    simp [extract_vehicle_preferences, hcr, h2, h20, h5, h50, h10]
  · intro t h2 h20 h5 h50 h10
    by_cases hg : (["crore", "lakh", "million"].any (fun w => strContains (lowerStr t) w)) = true
    · simp [extract_vehicle_preferences, hg, h2, h20, h5, h50, h10]
    · rw [Bool.not_eq_true] at hg
      simp [extract_vehicle_preferences, hg]

/-- Witness for C10 at concrete inputs: "2 crore" sets the low band, a bare
"lakh" mention with no trigger leaves the price unset, and "50000000" with
a currency word present sets the middle band. -/
theorem C10_price_range_amended_witness :
    (extract_vehicle_preferences "around 2 crore").price_range = some "2-5 Crores"
    ∧ (extract_vehicle_preferences "a few lakh maybe").price_range = none
    ∧ (extract_vehicle_preferences "50000000, i.e. 5 crore").price_range = some "5-10 Crores" :=
  ⟨C10_price_range_amended.2.1 "around 2 crore" (by decide),
   C10_price_range_amended.2.2.2.2.2.2 "a few lakh maybe"
     (by decide) (by decide) (by decide) (by decide) (by decide),
   C10_price_range_amended.2.2.2.1 "50000000, i.e. 5 crore"
     (by decide) (by decide) (by decide)⟩

/-- Claim C7 counterexample: the claim asserts the sentiment field is set
to `sentiment(C)` for an Interaction with content C, but an interaction
whose content is the empty string is left untouched: its sentiment stays
`none`, not `some "Neutral"` (= `sentiment("")`). -/
theorem C7_analyze_interaction_counterexample :
    (analyze_interaction_task ⟨1, 7, "Phone", some "", none, none, none, none, 0⟩).1.sentiment
        = none
    ∧ analyze_conversation_sentiment "" = "Neutral"
    ∧ (analyze_interaction_task ⟨1, 7, "Phone", some "", none, none, none, none, 0⟩).1.sentiment
        ≠ some (analyze_conversation_sentiment "") :=
  ⟨by decide, by decide, by decide⟩

/-- Claim C7 (amended): for an interaction whose content is non-empty,
`analyze_interaction_task` writes sentiment = `sentiment(C)`, outcome
derived from `intents(C)` and the generated summary; it is idempotent
(re-running on the updated row reproduces the identical row and dispatch
list); and it dispatches `schedule_followup` exactly for the detected
intents among test_drive (as "test_drive_confirmation") and pricing (as
"send_pricing"), in that order.  Empty or missing content is a no-op. -/
theorem C7_analyze_interaction_amended :
    ∀ i : Interaction,
      (i.content.getD "" = "" → analyze_interaction_task i = (i, []))
      ∧ (i.content.getD "" ≠ "" →
          (analyze_interaction_task i).1.sentiment
              = some (analyze_conversation_sentiment (i.content.getD ""))
          ∧ (analyze_interaction_task i).1.outcome
              = some (determine_outcome_from_intents (extract_key_intents (i.content.getD "")))
          ∧ (analyze_interaction_task i).1.summary
              = some (generate_interaction_summary (i.content.getD "") 200)
          ∧ analyze_interaction_task ((analyze_interaction_task i).1)
              = analyze_interaction_task i
          ∧ (analyze_interaction_task i).2
              = (if (extract_key_intents (i.content.getD "")).contains "test_drive"
                 then [(i.customer_id, "test_drive_confirmation")] else [])
                ++ (if (extract_key_intents (i.content.getD "")).contains "pricing"
                 then [(i.customer_id, "send_pricing")] else [])) := by
  intro i
  constructor
  · intro h0
    simp [analyze_interaction_task, h0]
  · intro h
    have hrun : analyze_interaction_task i
        = ({ i with
              sentiment := some (analyze_conversation_sentiment (i.content.getD ""))
              summary := some (generate_interaction_summary (i.content.getD "") 200)
              outcome := some (determine_outcome_from_intents
                (extract_key_intents (i.content.getD ""))) },
           (if (extract_key_intents (i.content.getD "")).contains "test_drive"
            then [(i.customer_id, "test_drive_confirmation")] else [])
           ++ (if (extract_key_intents (i.content.getD "")).contains "pricing"
            then [(i.customer_id, "send_pricing")] else [])) := by
      simp [analyze_interaction_task, h]
    refine ⟨by rw [hrun], by rw [hrun], by rw [hrun], ?_, by rw [hrun]⟩
    rw [hrun]
    simp [analyze_interaction_task, h]

theorem countP_map_eq {α β : Type} (f : α → β) (p : β → Bool) (l : List α) :
    (l.map f).countP p = l.countP (fun a => p (f a)) := by
  induction l with
  | nil => rfl
  | cons a t ih => simp [List.countP_cons, ih]

theorem countP_filter_eq {α : Type} (q p : α → Bool) (l : List α) :
    (l.filter q).countP p = l.countP (fun a => p a && q a) := by
  induction l with
  | nil => rfl
  | cons a t ih =>
    by_cases hq : q a <;> simp [List.filter_cons, hq, List.countP_cons, ih]

theorem countP_congr_eq {α : Type} {p q : α → Bool} (l : List α)
    (h : ∀ a ∈ l, p a = q a) : l.countP p = l.countP q := by
  induction l with
  | nil => rfl
  | cons a t ih =>
    rw [List.countP_cons, List.countP_cons, h a (List.mem_cons_self a t),
      ih fun b hb => h b (List.mem_cons_of_mem a hb)]

/-- Claim C8 counterexample: a Warm-Lead customer whose last interaction is
five days old but who has no email address gets nothing enqueued, although
the claim requires exactly one `nurture_warm_lead` follow-up for every warm
customer past the 3-day threshold. -/
theorem C8_daily_nurture_counterexample :
    last_interaction_ts [⟨1, 1, "Phone", some "hi", none, none, none, none, -432000⟩] 1
        = some (-432000)
    ∧ ((-432000 : Int) < 0 - 3 * 86400)
    ∧ (daily_lead_nurture_task
        ⟨[⟨1, some "A", none, "+911", none, none, "Warm Lead"⟩],
         [⟨1, 1, "Phone", some "hi", none, none, none, none, -432000⟩], 0⟩).queue = [] :=
  ⟨by decide, by decide, by decide⟩

/-- Claim C8 (amended): `daily_lead_nurture_task` scans Warm-Lead customers
and dispatches exactly one `schedule_followup(customer_id,
"nurture_warm_lead")` for each one whose most recent interaction is older
than three days AND who has a truthy email address on file; warm customers
failing either condition (fresh interaction, no interaction at all, or no
email) get nothing; the run returns the observability counts
(total warm leads, number nurtured). -/
theorem C8_daily_nurture_amended :
    ∀ σ : NurtureState,
      ((daily_lead_nurture_task σ).queue
        = ((σ.customers.filter (fun c => c.customer_type == "Warm Lead")).filter
            (nurture_qualifies σ)).map (fun c => (c.customer_id, "nurture_warm_lead")))
      ∧ ((daily_lead_nurture_task σ).total_warm_leads
          = (σ.customers.filter (fun c => c.customer_type == "Warm Lead")).length)
      ∧ ((daily_lead_nurture_task σ).nurtured
          = ((σ.customers.filter (fun c => c.customer_type == "Warm Lead")).filter
              (nurture_qualifies σ)).length)
      ∧ (∀ c ∈ σ.customers, (σ.customers.map (fun x => x.customer_id)).Nodup →
          c.customer_type = "Warm Lead" →
          (nurture_qualifies σ c = true →
            (daily_lead_nurture_task σ).queue.countP (fun e => e.1 == c.customer_id) = 1)
          ∧ (nurture_qualifies σ c = false →
            (daily_lead_nurture_task σ).queue.countP (fun e => e.1 == c.customer_id) = 0)) := by
  intro σ
  have hrun := nurture_foldl σ
    (σ.customers.filter (fun c => c.customer_type == "Warm Lead")) (0, [])
  have hqueue : (daily_lead_nurture_task σ).queue
      = ((σ.customers.filter (fun c => c.customer_type == "Warm Lead")).filter
          (nurture_qualifies σ)).map (fun c => (c.customer_id, "nurture_warm_lead")) := by
    simp [daily_lead_nurture_task, hrun]
  have hcount : ∀ c : Customer,
      (daily_lead_nurture_task σ).queue.countP (fun e => e.1 == c.customer_id)
        = σ.customers.countP (fun x =>
            (nurture_qualifies σ x && (x.customer_type == "Warm Lead"))
              && (x.customer_id == c.customer_id)) := by
    intro c
    rw [hqueue, countP_map_eq, countP_filter_eq, countP_filter_eq]
    refine countP_congr_eq _ fun a _ => ?_
    cases nurture_qualifies σ a <;> cases a.customer_type == "Warm Lead" <;>
      cases a.customer_id == c.customer_id <;> rfl
  refine ⟨hqueue, ?_, ?_, ?_⟩
  · simp [daily_lead_nurture_task]
  · simp [daily_lead_nurture_task, hrun]
  · intro c hc hnd hwarm
    have hwb : (c.customer_type == "Warm Lead") = true := beq_iff_eq.mpr hwarm
    constructor
    · intro hqual
      rw [hcount c, countP_unique_id σ.customers
        (fun x => nurture_qualifies σ x && (x.customer_type == "Warm Lead")) c hc hnd]
      simp [hqual, hwb]
    · intro hqual
      rw [hcount c, countP_unique_id σ.customers
        (fun x => nurture_qualifies σ x && (x.customer_type == "Warm Lead")) c hc hnd]
      simp [hqual]

/-- Witness for C8: one Warm-Lead customer with an email and a 5-day-old
interaction gets exactly one `nurture_warm_lead` dispatch; with the same
data but a 1-day-old interaction the customer does not qualify and gets
none. -/
theorem C8_daily_nurture_amended_witness :
    ((daily_lead_nurture_task
        ⟨[⟨1, some "A", none, "+911", some "a@b.example", none, "Warm Lead"⟩],
         [⟨1, 1, "Phone", some "hi", none, none, none, none, -432000⟩], 0⟩).queue.countP
        (fun e => e.1 == 1) = 1)
    ∧ ((daily_lead_nurture_task
        ⟨[⟨1, some "A", none, "+911", some "a@b.example", none, "Warm Lead"⟩],
         [⟨1, 1, "Phone", some "hi", none, none, none, none, -86400⟩], 0⟩).queue.countP
        (fun e => e.1 == 1) = 0) :=
  ⟨((C8_daily_nurture_amended
      ⟨[⟨1, some "A", none, "+911", some "a@b.example", none, "Warm Lead"⟩],
       [⟨1, 1, "Phone", some "hi", none, none, none, none, -432000⟩], 0⟩).2.2.2
      ⟨1, some "A", none, "+911", some "a@b.example", none, "Warm Lead"⟩
      (by decide) (by decide) (by decide)).1 (by decide),
   ((C8_daily_nurture_amended
      ⟨[⟨1, some "A", none, "+911", some "a@b.example", none, "Warm Lead"⟩],
       [⟨1, 1, "Phone", some "hi", none, none, none, none, -86400⟩], 0⟩).2.2.2
      ⟨1, some "A", none, "+911", some "a@b.example", none, "Warm Lead"⟩
      (by decide) (by decide) (by decide)).2 (by decide)⟩

/-- Witness for C7 at a concrete interaction whose content triggers both
the test_drive and pricing intents. -/
theorem C7_analyze_interaction_amended_witness :
    (analyze_interaction_task
        ⟨2, 9, "Phone", some "Can I test drive the car? Also how much does it cost",
         none, none, none, none, 0⟩).1.sentiment
      = some (analyze_conversation_sentiment
          "Can I test drive the car? Also how much does it cost")
    ∧ (analyze_interaction_task
        ⟨2, 9, "Phone", some "Can I test drive the car? Also how much does it cost",
         none, none, none, none, 0⟩).2
      = (if (extract_key_intents
              "Can I test drive the car? Also how much does it cost").contains "test_drive"
         then [(9, "test_drive_confirmation")] else [])
        ++ (if (extract_key_intents
              "Can I test drive the car? Also how much does it cost").contains "pricing"
         then [(9, "send_pricing")] else []) := by
  have h := (C7_analyze_interaction_amended
    ⟨2, 9, "Phone", some "Can I test drive the car? Also how much does it cost",
     none, none, none, none, 0⟩).2 (by decide)
  exact ⟨h.1, h.2.2.2.2⟩

/-- Claim C1: evaluation of the call-end handler at the failing input — an
end-of-call-report for an unknown phone number with a non-empty transcript
against an empty customer table.  The row the handler tries to insert
carries `first_name = none`, violating the NOT NULL constraint declared in
customer_model.py, so the create path fails (handler.py:152-158 rolls
back): no Customer row exists afterwards, no Interaction or CallLog row is
written, and no scoring task is enqueued — contrary to the claim (and to
the handler's own comment demanding that creation work and to spec
scenario B); only the marker deletion and the 200 acknowledgment
happen. -/
theorem C1_call_end_divergence :
    (handle_call_end
        ⟨some "end-of-call-report", none, some "abc123", none,
         some "+911234567890", some "I want to buy now", none, none⟩
        ⟨[], [], 1, ["call_active_abc123"], true, []⟩).1.customers = []
    ∧ (handle_call_end
        ⟨some "end-of-call-report", none, some "abc123", none,
         some "+911234567890", some "I want to buy now", none, none⟩
        ⟨[], [], 1, ["call_active_abc123"], true, []⟩).1.interactions = []
    ∧ (handle_call_end
        ⟨some "end-of-call-report", none, some "abc123", none,
         some "+911234567890", some "I want to buy now", none, none⟩
        ⟨[], [], 1, ["call_active_abc123"], true, []⟩).1.queued = []
    ∧ (handle_call_end
        ⟨some "end-of-call-report", none, some "abc123", none,
         some "+911234567890", some "I want to buy now", none, none⟩
        ⟨[], [], 1, ["call_active_abc123"], true, []⟩).1.redis = []
    ∧ (handle_call_end
        ⟨some "end-of-call-report", none, some "abc123", none,
         some "+911234567890", some "I want to buy now", none, none⟩
        ⟨[], [], 1, ["call_active_abc123"], true, []⟩).2 = 200
    ∧ extract_transcript
        ⟨some "end-of-call-report", none, some "abc123", none,
         some "+911234567890", some "I want to buy now", none, none⟩ = "I want to buy now"
    ∧ (new_caller 1 "+911234567890").first_name = none
    ∧ customer_insert_ok [] (new_caller 1 "+911234567890") = false :=
  ⟨by decide, by decide, by decide, by decide, by decide, by decide, by decide, by decide⟩
